import Mathlib

/-!
Verification of the workspace-loading slice of the repository
(`python_modules/dagster/dagster/cli/workspace/load.py`).

The source file resolves a declarative workspace document into
`RepositoryLocationHandle`s.  The embedding below translates the
resolver functions of `load.py` one-for-one; collaborators that the
source merely calls (the autodiscovery target loader, the remote
lister, `def_from_pointer`, `os.path.expanduser`) are supplied as an
explicit environment of oracle functions, and the handful of
constructors that live outside the sliced file are modelled from the
spec, each marked `Modelled from the spec:` in its doc comment.

Python truthiness (`if attribute:`, `if location_name:`) is modelled
explicitly: `None` and `""` (and `0` for ports) are falsy.  Python
`dict` insertion order and overwrite semantics are modelled by an
association list with replace-in-place-or-append insertion.
-/

namespace WorkspaceLoad

/-- Python truthiness of an optional string: `None` and `""` are falsy. -/
def truthyStr : Option String → Bool
  | none => false
  | some s => s ≠ ""

/-- Python truthiness of an optional integer port: `None` and `0` are falsy. -/
def truthyNat : Option Nat → Bool
  | none => false
  | some n => n ≠ 0

/-- A POSIX path is absolute when it starts with a slash. -/
def isAbsolutePath (p : String) : Bool :=
  match p.data with
  | [] => false
  | c :: _ => c = '/'

/-- Directory part of a path (`os.path.dirname`): everything strictly before
the last slash (empty when the path has no slash). -/
def dirname (p : String) : String :=
  ⟨((p.data.reverse.dropWhile (fun c => ¬ c = '/')).drop 1).reverse⟩

/-- Modelled from the spec: `rebase_file` (from `dagster.core.code_pointer`) is not
under `src/`.  Per §4.1, a path that is relative is resolved relative to the
directory containing the workspace document being processed, and an absolute
path passes through unchanged (this is `os.path.join(os.path.dirname(doc), p)`
semantics; joining with an empty directory leaves the path unchanged). -/
def rebase_file (p : String) (yamlPath : String) : String :=
  if isAbsolutePath p then p
  else if dirname yamlPath = "" then p
  else dirname yamlPath ++ "/" ++ p

/-- Python `dict` assignment `d[k] = v`: replace the value at an existing key in
place (keeping its position), otherwise append the new pair at the end. -/
def dictInsert {α : Type} (d : List (String × α)) (k : String) (v : α) :
    List (String × α) :=
  if d.any (fun kv => kv.1 = k) then
    d.map (fun kv => if kv.1 = k then (k, v) else kv)
  else d ++ [(k, v)]

/-- Fold a sequence of `d[k] = v` assignments into an accumulating dict. -/
def dictInsertFold {α : Type} (d : List (String × α)) (l : List (String × α)) :
    List (String × α) :=
  l.foldl (fun acc kv => dictInsert acc kv.1 kv.2) d

/-- A Python dict comprehension `{k(x): v(x) for x in xs}` over an already-mapped
list of key/value pairs. -/
def dictOfList {α : Type} (l : List (String × α)) : List (String × α) :=
  dictInsertFold [] l

/-- `d.keys()` in insertion order. -/
def dictKeys {α : Type} (d : List (String × α)) : List String := d.map (fun kv => kv.1)

/-- `d.get(k)`: the value at the first (and in a real dict, only) entry for `k`. -/
def dictLookup {α : Type} (d : List (String × α)) (k : String) : Option α :=
  match d.find? (fun kv => kv.1 = k) with
  | some kv => some kv.2
  | none => none

/-- `CodePointer` (from `dagster.core.code_pointer`): an immutable locator of a
single loadable object, one of file/module/package form plus the legacy
repository-yaml form. -/
inductive CodePointer
  | file (pythonFile : String) (attributeName : String) (workingDirectory : Option String)
  | module (moduleName : String) (attributeName : String)
  | package (packageName : String) (attributeName : String)
  | legacy (yamlPath : String)
deriving DecidableEq

/-- The loaded definition object; the resolver only consumes the name it
reports about itself (`target_definition.name`). -/
structure Definition where
  name : String
deriving DecidableEq

/-- `LoadableTarget` (from `.autodiscovery`): an attribute name together with
the definition loaded from it. -/
structure LoadableTarget where
  attributeName : String
  targetDefinition : Definition
deriving DecidableEq

/-- Modelled from the spec: the repository symbols carried by the response of
`sync_list_repositories` / `sync_list_repositories_ephemeral_grpc` (not under
`src/`).  Per §3, a discovered target is an `(attribute_name, repository_name)`
pair, where the repository name is the identity the loaded object reports about
itself, which may differ from the attribute name used to reach it. -/
structure RepositorySymbol where
  repositoryName : String
  attributeName : String
deriving DecidableEq

/-- The response of a remote `list_repositories` call. -/
structure ListRepositoriesResponse where
  repositorySymbols : List RepositorySymbol
deriving DecidableEq

/-- `RepositoryLocationApi` (from `dagster.core.host_representation`): the flag
selecting the plain-CLI or the RPC strategy. -/
inductive RepositoryLocationApi
  | cli
  | grpc
deriving DecidableEq

/-- `RepositoryLocationHandle` with its four strategies and their payloads. -/
inductive RepositoryLocationHandle
  | inProcess (repositoryCodePointerDict : List (String × CodePointer))
  | outOfProcess (locationName : String)
      (repositoryCodePointerDict : List (String × CodePointer))
      (api : RepositoryLocationApi)
  | pythonEnv (executablePath : String) (locationName : String)
      (repositoryCodePointerDict : List (String × CodePointer))
      (api : RepositoryLocationApi)
  | grpcServer (port : Option Nat) (socket : Option String) (host : String)
      (locationName : String)
deriving DecidableEq

/-- The location name carried by a handle.  Modelled from the spec for the
legacy in-process strategy, whose naming lives outside `src/`; the other three
strategies carry the name assigned by the resolver. -/
def RepositoryLocationHandle.locationName : RepositoryLocationHandle → String
  | .inProcess _ => "<<in_process>>"
  | .outOfProcess n _ _ => n
  | .pythonEnv _ n _ _ => n
  | .grpcServer _ _ _ n => n

/-- The repository-name → code-pointer payload of a handle (empty for the
grpc-server strategy, whose mapping is only known after an out-of-scope
handshake). -/
def RepositoryLocationHandle.repositoryCodePointerDict :
    RepositoryLocationHandle → List (String × CodePointer)
  | .inProcess d => d
  | .outOfProcess _ d _ => d
  | .pythonEnv _ _ d _ => d
  | .grpcServer _ _ _ _ => []

/-- The failures the resolver can raise.  `ambiguousLocationName` is the
`DagsterInvariantViolationError` of `assign_location_name` (the spec's
`AmbiguousLocationNameError`); `configurationError` is the `check.invariant`
failure of the grpc-server entry (the spec's `ConfigurationError`);
`invariantViolation` covers the remaining `check.invariant` failures and
`stopIteration` the `next()` call of `assign_location_name` on an empty dict. -/
inductive ResolveError
  | ambiguousLocationName
  | configurationError
  | invariantViolation
  | stopIteration
  | notImplemented
deriving DecidableEq

/-- One enumeration request issued during resolution: either an in-process
autodiscovery call or a remote `list_repositories` call (recording the full
request the remote lister receives). -/
inductive DiscoveryCall
  | localFile (pythonFile : String) (workingDirectory : Option String)
  | localModule (moduleName : String)
  | localPackage (packageName : String)
  | remote (api : RepositoryLocationApi) (executablePath : String)
      (pythonFile : Option String) (moduleName : Option String)
      (workingDirectory : Option String)
deriving DecidableEq

/-- Whether a discovery call crossed a process boundary. -/
def DiscoveryCall.isRemote : DiscoveryCall → Bool
  | .remote _ _ _ _ _ => true
  | _ => false

deriving instance DecidableEq for Except

/-- Outcome of resolving one location entry: the handle (or the error raised)
together with the enumeration calls performed along the way. -/
structure Resolution where
  result : Except ResolveError RepositoryLocationHandle
  calls : List DiscoveryCall
deriving DecidableEq

/-- The collaborators the sliced file calls but does not define: the in-process
target loader (`def_from_pointer` and the three `loadable_targets_from_*`
autodiscovery functions), the two remote listers, and `os.path.expanduser`. -/
structure Env where
  loadDef : CodePointer → Definition
  targetsFromFile : String → Option String → List LoadableTarget
  targetsFromModule : String → List LoadableTarget
  targetsFromPackage : String → List LoadableTarget
  listRepositoriesCli :
    String → Option String → Option String → Option String → ListRepositoriesResponse
  listRepositoriesGrpc :
    String → Option String → Option String → Option String → ListRepositoriesResponse
  expandUser : String → String

/-- The dict form of a `python_file` entry. -/
structure FileRefData where
  relativePath : String
  attributeName : Option String
  locationName : Option String
  workingDirectory : Option String
deriving DecidableEq

/-- A `python_file` entry: either the bare-string shorthand or the dict form. -/
inductive PythonFileConfig
  | str (s : String)
  | ref (r : FileRefData)
deriving DecidableEq

/-- The dict form of a `python_module` entry. -/
structure ModuleRefData where
  moduleName : String
  attributeName : Option String
  locationName : Option String
deriving DecidableEq

/-- A `python_module` entry: bare string or dict form. -/
inductive PythonModuleConfig
  | str (s : String)
  | ref (r : ModuleRefData)
deriving DecidableEq

/-- The dict form of a `python_package` entry. -/
structure PackageRefData where
  packageName : String
  attributeName : Option String
  locationName : Option String
deriving DecidableEq

/-- A `python_package` entry: bare string or dict form. -/
inductive PythonPackageConfig
  | str (s : String)
  | ref (r : PackageRefData)
deriving DecidableEq

/-- A target config: exactly one of the three target keys. -/
inductive TargetConfig
  | pythonFile (c : PythonFileConfig)
  | pythonModule (c : PythonModuleConfig)
  | pythonPackage (c : PythonPackageConfig)
deriving DecidableEq

/-- The explicit attributeName carried by a target config, if any (bare-string
shorthand carries none). -/
def TargetConfig.attributeOf : TargetConfig → Option String
  | .pythonFile (.str _) => none
  | .pythonFile (.ref r) => r.attributeName
  | .pythonModule (.str _) => none
  | .pythonModule (.ref r) => r.attributeName
  | .pythonPackage (.str _) => none
  | .pythonPackage (.ref r) => r.attributeName

/-- A `grpc_server` entry. -/
structure GrpcServerConfig where
  port : Option Nat
  socket : Option String
  host : Option String
  locationName : Option String
deriving DecidableEq

/-- A `python_environment` entry: an executable path plus a nested target. -/
structure PythonEnvironmentConfig where
  executablePath : String
  target : TargetConfig
deriving DecidableEq

/-- One entry of `load_from`. -/
inductive LocationConfig
  | target (t : TargetConfig)
  | grpcServer (g : GrpcServerConfig)
  | pythonEnvironment (p : PythonEnvironmentConfig)
deriving DecidableEq

/-- One workspace document (after schema validation, which is out of scope):
the deprecated legacy `repository` key short-circuits everything else. -/
structure WorkspaceDoc where
  legacyRepository : Bool
  optIn : Option (List String)
  loadFrom : List LocationConfig
deriving DecidableEq

/-- Modelled from the spec: the `Workspace` class (`.workspace`) is not under
`src/`.  Per §3 it is an aggregate mapping `location_name → handle`, built from
a handle list and keyed by each handle's own location name. -/
structure Workspace where
  handlesDict : List (String × RepositoryLocationHandle)
deriving DecidableEq

/-- Build a `Workspace` from a handle list, keying by each handle's name. -/
def Workspace.ofHandles (handles : List RepositoryLocationHandle) : Workspace :=
  ⟨dictOfList (handles.map (fun h => (h.locationName, h)))⟩

/-- `workspace.repository_location_names`. -/
def Workspace.repositoryLocationNames (w : Workspace) : List String :=
  dictKeys w.handlesDict

/-- `workspace.get_repository_location_handle(name)`. -/
def Workspace.getRepositoryLocationHandle (w : Workspace) (n : String) :
    Option RepositoryLocationHandle :=
  dictLookup w.handlesDict n

/-- `assign_location_name` (load.py:175): keep a truthy explicit name; with more
than one repository and no explicit name raise the ambiguity error; otherwise
default to the single repository's name. -/
def assign_location_name (locationName : Option String)
    (repositoryCodePointerDict : List (String × CodePointer)) :
    Except ResolveError String :=
  if truthyStr locationName then .ok (locationName.getD "")
  else if repositoryCodePointerDict.length > 1 then .error .ambiguousLocationName
  else
    match dictKeys repositoryCodePointerDict with
    | [] => .error .stopIteration
    | k :: _ => .ok k

/-- Modelled from the spec:
`RepositoryLocationHandle.create_in_process_location` is not under `src/`.
Per §4.3 the legacy path builds a single-entry handle directly from the
legacy-format pointer with no discovery step, and per §3 the payload mapping
is keyed by the repository name the loaded object reports about itself, so
the single entry maps the loaded definition's self-reported name to the
pointer. -/
def create_in_process_location (env : Env) (pointer : CodePointer) :
    RepositoryLocationHandle :=
  .inProcess [((env.loadDef pointer).name, pointer)]

/-- Modelled from the spec:
`RepositoryLocationHandle.create_out_of_process_location` is not under `src/`.
Per §4.3 the plain strategy is OutOfProcessCLI and RPC is opt-in, so the
builder's `api` parameter defaults to the CLI tag at call sites that omit it. -/
def create_out_of_process_location
    (repositoryCodePointerDict : List (String × CodePointer))
    (locationName : String) (api : RepositoryLocationApi) :
    RepositoryLocationHandle :=
  .outOfProcess locationName repositoryCodePointerDict api

/-- Modelled from the spec:
`RepositoryLocationHandle.create_python_env_location` is not under `src/`.
Per §4.4 the Naming Resolver contract applies to python-environment locations
as well: an explicit name is kept, more than one repository without a name
fails with the ambiguity error, and a single repository lends its name. -/
def create_python_env_location (executablePath : String)
    (locationName : Option String)
    (repositoryCodePointerDict : List (String × CodePointer))
    (api : RepositoryLocationApi) :
    Except ResolveError RepositoryLocationHandle :=
  (assign_location_name locationName repositoryCodePointerDict).map
    (fun n => .pythonEnv executablePath n repositoryCodePointerDict api)

/-- `_get_module_config_data` (load.py:94): bare string means no attributeName and
no location name.  Components: module name, attributeName, location name. -/
def _get_module_config_data : PythonModuleConfig → String × Option String × Option String
  | .str s => (s, none, none)
  | .ref r => (r.moduleName, r.attributeName, r.locationName)

/-- `_get_package_config_data` (load.py:138).  Components: package name,
attributeName, location name. -/
def _get_package_config_data : PythonPackageConfig → String × Option String × Option String
  | .str s => (s, none, none)
  | .ref r => (r.packageName, r.attributeName, r.locationName)

/-- `_get_python_file_config_data` (load.py:200): the target path is always
rebased against the document's directory; a truthy working directory is
rebased too, a falsy one stays unset.  Components: absolute path, attributeName,
location name, working directory. -/
def _get_python_file_config_data (c : PythonFileConfig) (yamlPath : String) :
    String × Option String × Option String × Option String :=
  match c with
  | .str s => (rebase_file s yamlPath, none, none, none)
  | .ref r =>
    (rebase_file r.relativePath yamlPath, r.attributeName, r.locationName,
      if truthyStr r.workingDirectory then
        some (rebase_file (r.workingDirectory.getD "") yamlPath)
      else none)

/-- `load_def_in_module` (load.py:76). -/
def load_def_in_module (env : Env) (moduleName attributeName : String) : Definition :=
  env.loadDef (.module moduleName attributeName)

/-- `load_def_in_package` (load.py:80). -/
def load_def_in_package (env : Env) (packageName attributeName : String) : Definition :=
  env.loadDef (.package packageName attributeName)

/-- `load_def_in_python_file` (load.py:84). -/
def load_def_in_python_file (env : Env) (pythonFile attributeName : String)
    (workingDirectory : Option String) : Definition :=
  env.loadDef (.file pythonFile attributeName workingDirectory)

/-- `location_handle_from_module_name` (load.py:106): with a truthy attributeName a
single target is synthesized by loading it, otherwise autodiscovery enumerates
the module; the dict is keyed by each target definition's self-reported name. -/
def location_handle_from_module_name (env : Env) (moduleName : String)
    (attributeName : Option String) (api : RepositoryLocationApi)
    (locationName : Option String) : Resolution :=
  let loadableTargets :=
    if truthyStr attributeName then
      [⟨attributeName.getD "", load_def_in_module env moduleName (attributeName.getD "")⟩]
    else env.targetsFromModule moduleName
  let calls : List DiscoveryCall :=
    if truthyStr attributeName then [] else [.localModule moduleName]
  let repositoryCodePointerDict :=
    dictOfList (loadableTargets.map (fun lt =>
      (lt.targetDefinition.name, CodePointer.module moduleName lt.attributeName)))
  { result := (assign_location_name locationName repositoryCodePointerDict).map
      (fun n => create_out_of_process_location repositoryCodePointerDict n api)
    calls := calls }

/-- `location_handle_from_package_name` (load.py:150).  Note: unlike the module
and file versions, the source validates its `api` parameter but does not pass
it to `create_out_of_process_location`, so the builder's CLI default applies. -/
def location_handle_from_package_name (env : Env) (packageName : String)
    (attributeName : Option String) (api : RepositoryLocationApi)
    (locationName : Option String) : Resolution :=
  let _ := api
  let loadableTargets :=
    if truthyStr attributeName then
      [⟨attributeName.getD "", load_def_in_package env packageName (attributeName.getD "")⟩]
    else env.targetsFromPackage packageName
  let calls : List DiscoveryCall :=
    if truthyStr attributeName then [] else [.localPackage packageName]
  let repositoryCodePointerDict :=
    dictOfList (loadableTargets.map (fun lt =>
      (lt.targetDefinition.name, CodePointer.package packageName lt.attributeName)))
  { result := (assign_location_name locationName repositoryCodePointerDict).map
      (fun n => create_out_of_process_location repositoryCodePointerDict n
        RepositoryLocationApi.cli)
    calls := calls }

/-- `location_handle_from_python_file` (load.py:215). -/
def location_handle_from_python_file (env : Env) (pythonFile : String)
    (attributeName : Option String) (api : RepositoryLocationApi)
    (locationName : Option String) (workingDirectory : Option String) : Resolution :=
  let loadableTargets :=
    if truthyStr attributeName then
      [⟨attributeName.getD "",
        load_def_in_python_file env pythonFile (attributeName.getD "") workingDirectory⟩]
    else env.targetsFromFile pythonFile workingDirectory
  let calls : List DiscoveryCall :=
    if truthyStr attributeName then [] else [.localFile pythonFile workingDirectory]
  let repositoryCodePointerDict :=
    dictOfList (loadableTargets.map (fun lt =>
      (lt.targetDefinition.name,
        CodePointer.file pythonFile lt.attributeName workingDirectory)))
  { result := (assign_location_name locationName repositoryCodePointerDict).map
      (fun n => create_out_of_process_location repositoryCodePointerDict n api)
    calls := calls }

/-- `location_handle_from_python_file_config` (load.py:187). -/
def location_handle_from_python_file_config (env : Env) (c : PythonFileConfig)
    (yamlPath : String) (api : RepositoryLocationApi) : Resolution :=
  let d := _get_python_file_config_data c yamlPath
  location_handle_from_python_file env d.1 d.2.1 api d.2.2.1 d.2.2.2

/-- `_location_handle_from_module_config` (load.py:88). -/
def _location_handle_from_module_config (env : Env) (c : PythonModuleConfig)
    (api : RepositoryLocationApi) : Resolution :=
  let d := _get_module_config_data c
  location_handle_from_module_name env d.1 d.2.1 api d.2.2

/-- `_location_handle_from_package_config` (load.py:132). -/
def _location_handle_from_package_config (env : Env) (c : PythonPackageConfig)
    (api : RepositoryLocationApi) : Resolution :=
  let d := _get_package_config_data c
  location_handle_from_package_name env d.1 d.2.1 api d.2.2

/-- `_list_repositories` (load.py:248): the `Api` flag selects the ephemeral
grpc lister or the plain-subprocess lister; the returned `DiscoveryCall`
records the request the chosen lister received. -/
def _list_repositories (env : Env) (executablePath : String)
    (pythonFile moduleName workingDirectory : Option String)
    (api : RepositoryLocationApi) : ListRepositoriesResponse × DiscoveryCall :=
  (if api = .grpc then
     env.listRepositoriesGrpc executablePath pythonFile moduleName workingDirectory
   else
     env.listRepositoriesCli executablePath pythonFile moduleName workingDirectory,
   .remote api executablePath pythonFile moduleName workingDirectory)

/-- `_assign_grpc_location_name` (load.py:271): `grpc:{host}:{socket_or_port}`
with the socket preferred when truthy. -/
def _assign_grpc_location_name (port : Option Nat) (socket : Option String)
    (host : String) : Except ResolveError String :=
  if truthyNat port || truthyStr socket then
    .ok ("grpc:" ++ host ++ ":" ++
      (if truthyStr socket then socket.getD "" else toString (port.getD 0)))
  else .error .invariantViolation

/-- `_location_handle_from_grpc_server_config` (load.py:281): the
`check.invariant` demands a truthy socket or port but not both; the host
defaults to localhost; a falsy location name is synthesized. -/
def _location_handle_from_grpc_server_config (g : GrpcServerConfig) :
    Except ResolveError RepositoryLocationHandle :=
  if !((truthyStr g.socket || truthyNat g.port)
        && !(truthyStr g.socket && truthyNat g.port)) then
    .error .configurationError
  else
    let host := if truthyStr g.host then g.host.getD "" else "localhost"
    if truthyStr g.locationName then
      .ok (.grpcServer g.port g.socket host (g.locationName.getD ""))
    else
      (_assign_grpc_location_name g.port g.socket host).map
        (fun n => .grpcServer g.port g.socket host n)

/-- `_location_handle_from_python_environment_config` (load.py:307): shell-
expand the executable path; dispatch on the nested target; without a truthy
attributeName call the remote lister (passing no working directory) and key the
dict by each returned symbol's attributeName; with one, build the singleton dict
speculatively.  The location name is passed through to the builder. -/
def _location_handle_from_python_environment_config (env : Env)
    (p : PythonEnvironmentConfig) (yamlPath : String)
    (api : RepositoryLocationApi) : Resolution :=
  let executablePath := env.expandUser p.executablePath
  match p.target with
  | .pythonFile c =>
    let d := _get_python_file_config_data c yamlPath
    if truthyStr d.2.1 then
      { result := create_python_env_location executablePath d.2.2.1
          [(d.2.1.getD "", CodePointer.file d.1 (d.2.1.getD "") d.2.2.2)] api
        calls := [] }
    else
      let rc := _list_repositories env executablePath (some d.1) none none api
      { result := create_python_env_location executablePath d.2.2.1
          (dictOfList (rc.1.repositorySymbols.map (fun lrs =>
            (lrs.attributeName, CodePointer.file d.1 lrs.attributeName d.2.2.2)))) api
        calls := [rc.2] }
  | .pythonModule c =>
    let d := _get_module_config_data c
    if truthyStr d.2.1 then
      { result := create_python_env_location executablePath d.2.2
          [(d.2.1.getD "", CodePointer.module d.1 (d.2.1.getD ""))] api
        calls := [] }
    else
      let rc := _list_repositories env executablePath none (some d.1) none api
      { result := create_python_env_location executablePath d.2.2
          (dictOfList (rc.1.repositorySymbols.map (fun lrs =>
            (lrs.attributeName, CodePointer.module d.1 lrs.attributeName)))) api
        calls := [rc.2] }
  | .pythonPackage c =>
    let d := _get_package_config_data c
    if truthyStr d.2.1 then
      { result := create_python_env_location executablePath d.2.2
          [(d.2.1.getD "", CodePointer.package d.1 (d.2.1.getD ""))] api
        calls := [] }
    else
      let rc := _list_repositories env executablePath none (some d.1) none api
      { result := create_python_env_location executablePath d.2.2
          (dictOfList (rc.1.repositorySymbols.map (fun lrs =>
            (lrs.attributeName, CodePointer.package d.1 lrs.attributeName)))) api
        calls := [rc.2] }

/-- `_location_handle_from_target_config` (load.py:454). -/
def _location_handle_from_target_config (env : Env) (t : TargetConfig)
    (yamlPath : String) (api : RepositoryLocationApi) : Resolution :=
  match t with
  | .pythonFile c => location_handle_from_python_file_config env c yamlPath api
  | .pythonModule c => _location_handle_from_module_config env c api
  | .pythonPackage c => _location_handle_from_package_config env c api

/-- `_location_handle_from_location_config` (load.py:424): the `Api` flag comes
from membership of the grpc flag in the document's `opt_in` set; grpc-server
entries are resolved without any discovery. -/
def _location_handle_from_location_config (env : Env) (lc : LocationConfig)
    (yamlPath : String) (optIns : List String) : Resolution :=
  let api := if optIns.contains "grpc" then RepositoryLocationApi.grpc
             else RepositoryLocationApi.cli
  match lc with
  | .target t => _location_handle_from_target_config env t yamlPath api
  | .grpcServer g =>
    { result := _location_handle_from_grpc_server_config g, calls := [] }
  | .pythonEnvironment p =>
    _location_handle_from_python_environment_config env p yamlPath api

/-- The entry loop of `load_workspace_from_config` (load.py:67): resolve each
`load_from` entry in document order, aborting at the first failure. -/
def resolveLoadFrom (env : Env) (cfgs : List LocationConfig) (yamlPath : String)
    (optIns : List String) :
    Except ResolveError (List RepositoryLocationHandle) × List DiscoveryCall :=
  match cfgs with
  | [] => (.ok [], [])
  | c :: rest =>
    let r := _location_handle_from_location_config env c yamlPath optIns
    match r.result with
    | .error e => (.error e, r.calls)
    | .ok h =>
      let tailRes := resolveLoadFrom env rest yamlPath optIns
      (tailRes.1.map (fun hs => h :: hs), r.calls ++ tailRes.2)

/-- `load_workspace_from_config` (load.py:48): the legacy `repository` key
short-circuits into a single in-process handle; otherwise the `opt_in` set is
read (falsy becomes empty) and every `load_from` entry is resolved. -/
def load_workspace_from_config (env : Env) (doc : WorkspaceDoc)
    (yamlPath : String) :
    Except ResolveError Workspace × List DiscoveryCall :=
  if doc.legacyRepository then
    (.ok (Workspace.ofHandles [create_in_process_location env (.legacy yamlPath)]), [])
  else
    let optIns := doc.optIn.getD []
    match resolveLoadFrom env doc.loadFrom yamlPath optIns with
    | (.error e, calls) => (.error e, calls)
    | (.ok handles, calls) => (.ok (Workspace.ofHandles handles), calls)

/-- The per-document loop of `load_workspace_from_yaml_paths` (load.py:30):
load every document in order, aborting at the first failure. -/
def resolveDocs (env : Env) (docs : List (WorkspaceDoc × String)) :
    Except ResolveError (List Workspace) × List DiscoveryCall :=
  match docs with
  | [] => (.ok [], [])
  | (doc, yamlPath) :: rest =>
    match load_workspace_from_config env doc yamlPath with
    | (.error e, calls) => (.error e, calls)
    | (.ok w, calls) =>
      let tailRes := resolveDocs env rest
      (tailRes.1.map (fun ws => w :: ws), calls ++ tailRes.2)

/-- The merge loop of `load_workspace_from_yaml_paths` (load.py:36): fold every
workspace's handles into one dict keyed by location name, a later entry for a
name overwriting the earlier one. -/
def mergeDict (workspaces : List Workspace) :
    List (String × RepositoryLocationHandle) :=
  workspaces.foldl
    (fun d w =>
      w.repositoryLocationNames.foldl
        (fun acc n =>
          match w.getRepositoryLocationHandle n with
          | some h => dictInsert acc n h
          | none => acc)
        d)
    []

/-- `load_workspace_from_yaml_paths` (load.py:27): load each document, merge
all handles keyed by location name (last document wins), and build the merged
workspace from the surviving handle values. -/
def load_workspace_from_yaml_paths (env : Env)
    (docs : List (WorkspaceDoc × String)) :
    Except ResolveError Workspace × List DiscoveryCall :=
  match resolveDocs env docs with
  | (.error e, calls) => (.error e, calls)
  | (.ok workspaces, calls) =>
    let merged := mergeDict workspaces
    (.ok (Workspace.ofHandles (merged.map (fun kv => kv.2))), calls)

/-- A concrete collaborator environment used to evaluate the resolver: every
enumeration finds two targets, and self-reported repository names always
differ from the attributes reaching them. -/
def sampleEnv : Env where
  loadDef := fun _ => ⟨"prod"⟩
  targetsFromFile := fun _ _ => [⟨"a1", ⟨"repo1"⟩⟩, ⟨"a2", ⟨"repo2"⟩⟩]
  targetsFromModule := fun _ => [⟨"m1", ⟨"mrepo1"⟩⟩, ⟨"m2", ⟨"mrepo2"⟩⟩]
  targetsFromPackage := fun _ => [⟨"p1", ⟨"prepo1"⟩⟩, ⟨"p2", ⟨"prepo2"⟩⟩]
  listRepositoriesCli := fun _ _ _ _ => ⟨[⟨"rn1", "at1"⟩, ⟨"rn2", "at2"⟩]⟩
  listRepositoriesGrpc := fun _ _ _ _ => ⟨[⟨"grn1", "gat1"⟩, ⟨"grn2", "gat2"⟩]⟩
  expandUser := fun s => s

/-- A concrete collaborator environment whose enumerations each find exactly
one target. -/
def singleEnv : Env where
  loadDef := fun _ => ⟨"prod"⟩
  targetsFromFile := fun _ _ => [⟨"a1", ⟨"frepo"⟩⟩]
  targetsFromModule := fun _ => [⟨"m1", ⟨"mrepo"⟩⟩]
  targetsFromPackage := fun _ => [⟨"p1", ⟨"prepo"⟩⟩]
  listRepositoriesCli := fun _ _ _ _ => ⟨[⟨"rn", "at"⟩]⟩
  listRepositoriesGrpc := fun _ _ _ _ => ⟨[⟨"grn", "gat"⟩]⟩
  expandUser := fun s => s

/-! ### Dictionary lemmas -/

theorem dictKeys_append {α : Type} (d e : List (String × α)) :
    dictKeys (d ++ e) = dictKeys d ++ dictKeys e := by
  simp [dictKeys]

theorem any_key_eq_false {α : Type} (d : List (String × α)) (k : String)
    (h : k ∉ dictKeys d) : d.any (fun kv => kv.1 = k) = false := by
  simp only [dictKeys, List.mem_map] at h
  simp only [List.any_eq_false, decide_eq_true_eq]
  intro kv hkv hke
  exact h ⟨kv, hkv, hke⟩

theorem dictInsert_of_not_mem {α : Type} (d : List (String × α)) (k : String)
    (v : α) (h : k ∉ dictKeys d) : dictInsert d k v = d ++ [(k, v)] := by
  unfold dictInsert
  rw [any_key_eq_false d k h]
  simp

theorem dictKeys_dictInsert_mem {α : Type} (d : List (String × α)) (k : String)
    (v : α) (h : k ∈ dictKeys d) : dictKeys (dictInsert d k v) = dictKeys d := by
  unfold dictInsert
  have hany : d.any (fun kv => kv.1 = k) = true := by
    simp only [dictKeys, List.mem_map] at h
    obtain ⟨kv, hkv, hke⟩ := h
    simp only [List.any_eq_true, decide_eq_true_eq]
    exact ⟨kv, hkv, hke⟩
  rw [if_pos hany]
  simp only [dictKeys, List.map_map]
  refine List.map_congr_left ?_
  intro kv _
  by_cases hk : kv.1 = k
  · simp [Function.comp, hk]
  · simp [Function.comp, hk]

theorem nodup_keys_dictInsert {α : Type} (d : List (String × α)) (k : String)
    (v : α) (h : (dictKeys d).Nodup) : (dictKeys (dictInsert d k v)).Nodup := by
  by_cases hk : k ∈ dictKeys d
  · rw [dictKeys_dictInsert_mem d k v hk]; exact h
  · rw [dictInsert_of_not_mem d k v hk, dictKeys_append]
    refine List.Nodup.append h (by simp [dictKeys]) ?_
    intro a ha hb
    have hab : a = k := by simpa [dictKeys] using hb
    exact hk (hab ▸ ha)

theorem nodup_keys_dictInsertFold {α : Type} (l : List (String × α)) :
    ∀ d : List (String × α), (dictKeys d).Nodup →
      (dictKeys (dictInsertFold d l)).Nodup := by
  induction l with
  | nil => intro d h; simpa [dictInsertFold] using h
  | cons kv rest ih =>
    intro d h
    have : dictInsertFold d (kv :: rest) = dictInsertFold (dictInsert d kv.1 kv.2) rest := by
      simp [dictInsertFold]
    rw [this]
    exact ih _ (nodup_keys_dictInsert d kv.1 kv.2 h)

theorem nodup_keys_dictOfList {α : Type} (l : List (String × α)) :
    (dictKeys (dictOfList l)).Nodup :=
  nodup_keys_dictInsertFold l [] (by simp [dictKeys])

theorem dictInsertFold_of_nodup {α : Type} (l : List (String × α)) :
    ∀ d : List (String × α), (dictKeys d ++ dictKeys l).Nodup →
      dictInsertFold d l = d ++ l := by
  induction l with
  | nil => intro d _; simp [dictInsertFold]
  | cons kv rest ih =>
    intro d h
    have hk : kv.1 ∉ dictKeys d := by
      have hdisj := (List.nodup_append.mp h).2.2
      intro hmem
      exact hdisj hmem (by simp [dictKeys])
    have hstep : dictInsertFold d (kv :: rest) = dictInsertFold (d ++ [(kv.1, kv.2)]) rest := by
      simp [dictInsertFold, dictInsert_of_not_mem d kv.1 kv.2 hk]
    rw [hstep, ih (d ++ [(kv.1, kv.2)]) ?_]
    · simp
    · rw [dictKeys_append]
      have : dictKeys d ++ dictKeys [(kv.1, kv.2)] ++ dictKeys rest
          = dictKeys d ++ (dictKeys [(kv.1, kv.2)] ++ dictKeys rest) := by
        simp
      rw [this]
      simpa [dictKeys] using h

theorem dictOfList_of_nodup {α : Type} (l : List (String × α))
    (h : (dictKeys l).Nodup) : dictOfList l = l := by
  have := dictInsertFold_of_nodup l [] (by simpa [dictKeys] using h)
  simpa [dictOfList] using this

theorem mem_dictInsert {α : Type} (kv : String × α) (d : List (String × α))
    (k : String) (v : α) (h : kv ∈ dictInsert d k v) : kv = (k, v) ∨ kv ∈ d := by
  unfold dictInsert at h
  by_cases hc : d.any (fun x => x.1 = k) = true
  · rw [if_pos hc] at h
    obtain ⟨x, hx, hxe⟩ := List.mem_map.mp h
    by_cases hxk : x.1 = k
    · rw [if_pos hxk] at hxe; exact Or.inl hxe.symm
    · rw [if_neg hxk] at hxe; exact Or.inr (hxe ▸ hx)
  · rw [if_neg hc] at h
    rcases List.mem_append.mp h with h | h
    · exact Or.inr h
    · exact Or.inl (by simpa using h)

theorem mem_dictInsertFold {α : Type} (l : List (String × α)) :
    ∀ (d : List (String × α)) (kv : String × α),
      kv ∈ dictInsertFold d l → kv ∈ d ∨ kv ∈ l := by
  induction l with
  | nil => intro d kv h; exact Or.inl (by simpa [dictInsertFold] using h)
  | cons x rest ih =>
    intro d kv h
    have hstep : dictInsertFold d (x :: rest) = dictInsertFold (dictInsert d x.1 x.2) rest := by
      simp [dictInsertFold]
    rw [hstep] at h
    rcases ih _ kv h with h' | h'
    · rcases mem_dictInsert kv d x.1 x.2 h' with h'' | h''
      · exact Or.inr (by simp [h''])
      · exact Or.inl h''
    · exact Or.inr (by simp [h'])

theorem mem_dictOfList {α : Type} (l : List (String × α)) (kv : String × α)
    (h : kv ∈ dictOfList l) : kv ∈ l := by
  rcases mem_dictInsertFold l [] kv h with h' | h'
  · simp at h'
  · exact h'

theorem find?_replace {α : Type} (d : List (String × α)) (k : String) (v : α)
    (h : d.any (fun kv => kv.1 = k) = true) :
    (d.map (fun kv => if kv.1 = k then (k, v) else kv)).find?
      (fun kv => kv.1 = k) = some (k, v) := by
  induction d with
  | nil => simp at h
  | cons x rest ih =>
    by_cases hx : x.1 = k
    · simp [List.find?, hx]
    · have hrest : rest.any (fun kv => kv.1 = k) = true := by
        simp only [List.any_cons, Bool.or_eq_true, decide_eq_true_eq] at h
        rcases h with h | h
        · exact absurd h hx
        · exact h
      simpa [List.find?, hx] using ih hrest

theorem find?_replace_ne {α : Type} (d : List (String × α)) (k k' : String)
    (v : α) (h : ¬ k = k') :
    (d.map (fun kv => if kv.1 = k' then (k', v) else kv)).find?
      (fun kv => kv.1 = k) = d.find? (fun kv => kv.1 = k) := by
  induction d with
  | nil => simp
  | cons x rest ih =>
    simp only [List.map_cons]
    by_cases hx : x.1 = k'
    · rw [if_pos hx]
      rw [List.find?_cons_of_neg _ (by simp only [decide_eq_true_eq]; exact fun he => h he.symm)]
      rw [List.find?_cons_of_neg _
        (by simp only [decide_eq_true_eq, hx]; exact fun he => h he.symm)]
      exact ih
    · rw [if_neg hx]
      by_cases hxk : x.1 = k
      · rw [List.find?_cons_of_pos _ (by simp [hxk]),
          List.find?_cons_of_pos _ (by simp [hxk])]
      · rw [List.find?_cons_of_neg _ (by simp [hxk]),
          List.find?_cons_of_neg _ (by simp [hxk])]
        exact ih

theorem dictLookup_dictInsert_self {α : Type} (d : List (String × α))
    (k : String) (v : α) : dictLookup (dictInsert d k v) k = some v := by
  unfold dictInsert dictLookup
  by_cases hc : d.any (fun x => x.1 = k) = true
  · rw [if_pos hc, find?_replace d k v hc]
  · rw [if_neg hc, List.find?_append]
    have hnone : d.find? (fun kv => kv.1 = k) = none := by
      rw [List.find?_eq_none]
      intro x hx
      simp only [List.any_eq_true, decide_eq_true_eq] at hc
      simpa using fun he => hc ⟨x, hx, he⟩
    simp [hnone, List.find?]

theorem dictLookup_dictInsert_ne {α : Type} (d : List (String × α))
    (k k' : String) (v : α) (h : ¬ k = k') :
    dictLookup (dictInsert d k' v) k = dictLookup d k := by
  unfold dictInsert dictLookup
  by_cases hc : d.any (fun x => x.1 = k') = true
  · rw [if_pos hc, find?_replace_ne d k k' v h]
  · rw [if_neg hc, List.find?_append]
    have hsingle : ([(k', v)].find? (fun kv => kv.1 = k)) = none := by
      rw [List.find?_eq_none]
      intro x hx
      simp only [List.mem_singleton] at hx
      subst hx
      simp only [decide_eq_true_eq]
      exact fun he => h he.symm
    cases hfd : d.find? (fun kv => kv.1 = k) with
    | some x => simp [hfd]
    | none => simp [hfd, hsingle]

theorem dictLookup_fold_not_mem {α : Type} (l : List (String × α)) :
    ∀ (d : List (String × α)) (k : String), k ∉ dictKeys l →
      dictLookup (dictInsertFold d l) k = dictLookup d k := by
  induction l with
  | nil => intro d k _; simp [dictInsertFold]
  | cons x rest ih =>
    intro d k hk
    have hxk : ¬ k = x.1 := by
      intro he; exact hk (by simp [dictKeys, he])
    have hrest : k ∉ dictKeys rest := by
      intro he; exact hk (by simp [dictKeys] at he ⊢; exact Or.inr he)
    have hstep : dictInsertFold d (x :: rest) = dictInsertFold (dictInsert d x.1 x.2) rest := by
      simp [dictInsertFold]
    rw [hstep, ih _ k hrest, dictLookup_dictInsert_ne d k x.1 x.2 hxk]

theorem dictLookup_fold_nodup_mem {α : Type} (l : List (String × α)) :
    ∀ (d : List (String × α)) (k : String) (v : α), (dictKeys l).Nodup →
      (k, v) ∈ l → dictLookup (dictInsertFold d l) k = some v := by
  induction l with
  | nil => intro d k v _ hm; simp at hm
  | cons x rest ih =>
    intro d k v hnd hm
    have hstep : dictInsertFold d (x :: rest) = dictInsertFold (dictInsert d x.1 x.2) rest := by
      simp [dictInsertFold]
    rw [hstep]
    rcases List.mem_cons.mp hm with he | hm'
    · have hk : k ∉ dictKeys rest := by
        have := (by simpa [dictKeys] using hnd : (x.1 :: dictKeys rest).Nodup)
        have hnotin := (List.nodup_cons.mp this).1
        rw [← he] at hnotin
        simpa using hnotin
      rw [dictLookup_fold_not_mem rest _ k hk, ← he, dictLookup_dictInsert_self]
    · have hnd' : (dictKeys rest).Nodup := by
        have := (by simpa [dictKeys] using hnd : (x.1 :: dictKeys rest).Nodup)
        exact (List.nodup_cons.mp this).2
      exact ih _ k v hnd' hm'

theorem dictLookup_mem {α : Type} (d : List (String × α)) (k : String) (v : α)
    (h : dictLookup d k = some v) : (k, v) ∈ d := by
  unfold dictLookup at h
  cases hfd : d.find? (fun kv => kv.1 = k) with
  | none => rw [hfd] at h; simp at h
  | some kv =>
    rw [hfd] at h
    have hmem := List.mem_of_find?_eq_some hfd
    have hp := List.find?_some hfd
    simp only [decide_eq_true_eq] at hp
    simp only [Option.some.injEq] at h
    have : kv = (k, v) := by
      cases kv; simp_all
    rw [← this]; exact hmem

theorem dictLookup_self_of_nodup {α : Type} :
    ∀ d : List (String × α), (dictKeys d).Nodup →
      ∀ kv ∈ d, dictLookup d kv.1 = some kv.2 := by
  intro d
  induction d with
  | nil => intro _ kv hm; simp at hm
  | cons x rest ih =>
    intro h kv hm
    have hcons : (x.1 :: dictKeys rest).Nodup := by simpa [dictKeys] using h
    have hx : x.1 ∉ dictKeys rest := (List.nodup_cons.mp hcons).1
    have hnd' : (dictKeys rest).Nodup := (List.nodup_cons.mp hcons).2
    rcases List.mem_cons.mp hm with he | hm'
    · subst he
      simp [dictLookup, List.find?]
    · have hk : ¬ x.1 = kv.1 := by
        intro he
        apply hx
        rw [he]
        simp only [dictKeys, List.mem_map]
        exact ⟨kv, hm', rfl⟩
      have hrec := ih hnd' kv hm'
      unfold dictLookup at hrec ⊢
      rw [List.find?_cons_of_neg _ (by simp [hk])]
      exact hrec

theorem exceptMap_ok {ε α β : Type} (e : Except ε α) (f : α → β) (b : β)
    (h : e.map f = .ok b) : ∃ a, e = .ok a ∧ b = f a := by
  cases e with
  | error err => simp [Except.map] at h
  | ok a =>
    refine ⟨a, rfl, ?_⟩
    simpa [Except.map] using h.symm

/-! ### Workspace lemmas -/

theorem ofHandles_key_eq (hs : List RepositoryLocationHandle) :
    ∀ kv ∈ (Workspace.ofHandles hs).handlesDict, kv.2.locationName = kv.1 := by
  intro kv hm
  have hmem := mem_dictOfList _ kv hm
  obtain ⟨h, _, he⟩ := List.mem_map.mp hmem
  rw [← he]

theorem ofHandles_nodup (hs : List RepositoryLocationHandle) :
    (dictKeys (Workspace.ofHandles hs).handlesDict).Nodup :=
  nodup_keys_dictOfList _

theorem load_config_ok_shape (env : Env) (doc : WorkspaceDoc) (yamlPath : String)
    (w : Workspace) (t : List DiscoveryCall)
    (h : load_workspace_from_config env doc yamlPath = (.ok w, t)) :
    ∃ hs, w = Workspace.ofHandles hs := by
  unfold load_workspace_from_config at h
  by_cases hleg : doc.legacyRepository
  · rw [if_pos hleg] at h
    refine ⟨[create_in_process_location env (.legacy yamlPath)], ?_⟩
    have := congrArg Prod.fst h
    simp only [Except.ok.injEq] at this
    exact this.symm
  · rw [if_neg hleg] at h
    rcases hres : resolveLoadFrom env doc.loadFrom yamlPath (doc.optIn.getD [])
      with ⟨res, calls⟩
    simp only [hres] at h
    cases res with
    | error e => simp at h
    | ok handles =>
      refine ⟨handles, ?_⟩
      have := congrArg Prod.fst h
      simp only [Except.ok.injEq] at this
      exact this.symm

theorem names_fold_eq (whole : List (String × RepositoryLocationHandle)) :
    ∀ (l d0 : List (String × RepositoryLocationHandle)),
      (∀ kv ∈ l, dictLookup whole kv.1 = some kv.2) →
      (dictKeys l).foldl
        (fun acc n =>
          match dictLookup whole n with
          | some h => dictInsert acc n h
          | none => acc) d0
      = dictInsertFold d0 l := by
  intro l
  induction l with
  | nil => intro d0 _; simp [dictKeys, dictInsertFold]
  | cons kv rest ih =>
    intro d0 hsub
    have hkv := hsub kv (by simp)
    simp only [dictKeys, List.map_cons, List.foldl_cons, hkv]
    have hrec := ih (dictInsert d0 kv.1 kv.2) (fun x hx => hsub x (by simp [hx]))
    simpa [dictKeys, dictInsertFold] using hrec

theorem merge_step_eq (w : Workspace)
    (d : List (String × RepositoryLocationHandle))
    (hnd : (dictKeys w.handlesDict).Nodup) :
    w.repositoryLocationNames.foldl
      (fun acc n =>
        match w.getRepositoryLocationHandle n with
        | some h => dictInsert acc n h
        | none => acc) d
    = dictInsertFold d w.handlesDict := by
  unfold Workspace.repositoryLocationNames Workspace.getRepositoryLocationHandle
  exact names_fold_eq w.handlesDict w.handlesDict d
    (dictLookup_self_of_nodup w.handlesDict hnd)

theorem ofHandles_values (d : List (String × RepositoryLocationHandle))
    (hkey : ∀ kv ∈ d, kv.2.locationName = kv.1)
    (hnd : (dictKeys d).Nodup) :
    Workspace.ofHandles (d.map (fun kv => kv.2)) = ⟨d⟩ := by
  unfold Workspace.ofHandles
  have hmap : (d.map (fun kv => kv.2)).map (fun h => (h.locationName, h)) = d := by
    rw [List.map_map]
    have hpt : ∀ kv ∈ d,
        ((fun h => (RepositoryLocationHandle.locationName h, h)) ∘ fun kv => kv.2) kv
          = id kv := by
      intro kv hm
      obtain ⟨a, b⟩ := kv
      have := hkey (a, b) hm
      simp only [Function.comp, id]
      rw [this]
    rw [List.map_congr_left hpt, List.map_id]
  rw [hmap, dictOfList_of_nodup d hnd]

/-! ### Resolver lemmas -/

theorem assign_ambiguous (ln : Option String) (dict : List (String × CodePointer))
    (hln : truthyStr ln = false) (hlen : 1 < dict.length) :
    assign_location_name ln dict = .error .ambiguousLocationName := by
  unfold assign_location_name
  rw [hln]
  simp [hlen]

theorem dictOfList_length {α : Type} (l : List (String × α))
    (hnd : (dictKeys l).Nodup) : (dictOfList l).length = l.length := by
  rw [dictOfList_of_nodup l hnd]

theorem map_assign_ambiguous (ln : Option String) (l : List (String × CodePointer))
    (f : String → RepositoryLocationHandle)
    (hln : truthyStr ln = false) (hnd : (dictKeys l).Nodup) (hlen : 1 < l.length) :
    (assign_location_name ln (dictOfList l)).map f
      = .error .ambiguousLocationName := by
  rw [assign_ambiguous ln (dictOfList l) hln
    (by rw [dictOfList_length l hnd]; exact hlen)]
  rfl

theorem assign_location_name_singleton (ln : Option String)
    (kv : String × CodePointer) :
    assign_location_name ln [kv]
      = .ok (if truthyStr ln then ln.getD "" else kv.1) := by
  unfold assign_location_name
  cases hln : truthyStr ln <;> simp [hln, dictKeys]

/-! ### Claims -/

/-- C5: merging documents folds all handles into one mapping keyed by
location name with last-document-wins: when two documents each produce a
handle named `n`, the merged workspace resolves without error and carries the
second document's handle for `n`. -/
theorem C5_merge_last_document_wins (env : Env) (d1 d2 : WorkspaceDoc)
    (p1 p2 : String) (w1 w2 : Workspace) (t1 t2 : List DiscoveryCall)
    (n : String) (h1 h2 : RepositoryLocationHandle)
    (hw1 : load_workspace_from_config env d1 p1 = (.ok w1, t1))
    (hw2 : load_workspace_from_config env d2 p2 = (.ok w2, t2))
    (hn1 : w1.getRepositoryLocationHandle n = some h1)
    (hn2 : w2.getRepositoryLocationHandle n = some h2) :
    ∃ (w : Workspace) (calls : List DiscoveryCall),
      load_workspace_from_yaml_paths env [(d1, p1), (d2, p2)] = (.ok w, calls) ∧
      w.getRepositoryLocationHandle n = some h2 := by
  obtain ⟨hs1, hw1s⟩ := load_config_ok_shape env d1 p1 w1 t1 hw1
  obtain ⟨hs2, hw2s⟩ := load_config_ok_shape env d2 p2 w2 t2 hw2
  have hnd1 : (dictKeys w1.handlesDict).Nodup := by
    rw [hw1s]; exact ofHandles_nodup hs1
  have hnd2 : (dictKeys w2.handlesDict).Nodup := by
    rw [hw2s]; exact ofHandles_nodup hs2
  have hdocs : resolveDocs env [(d1, p1), (d2, p2)] = (.ok [w1, w2], t1 ++ t2) := by
    simp [resolveDocs, hw1, hw2, Except.map]
  have hmerge : mergeDict [w1, w2]
      = dictInsertFold (dictInsertFold [] w1.handlesDict) w2.handlesDict := by
    unfold mergeDict
    simp only [List.foldl_cons, List.foldl_nil]
    rw [merge_step_eq w1 _ hnd1, merge_step_eq w2 _ hnd2]
  have hkeyin : (n, h2) ∈ w2.handlesDict := dictLookup_mem _ _ _ hn2
  have hlook : dictLookup (mergeDict [w1, w2]) n = some h2 := by
    rw [hmerge]
    exact dictLookup_fold_nodup_mem w2.handlesDict _ n h2 hnd2 hkeyin
  have hkeyeq : ∀ kv ∈ mergeDict [w1, w2], kv.2.locationName = kv.1 := by
    rw [hmerge]
    intro kv hm
    rcases mem_dictInsertFold _ _ kv hm with hm' | hm'
    · rcases mem_dictInsertFold _ _ kv hm' with hm'' | hm''
      · simp at hm''
      · rw [hw1s] at hm''; exact ofHandles_key_eq hs1 kv hm''
    · rw [hw2s] at hm'; exact ofHandles_key_eq hs2 kv hm'
  have hndm : (dictKeys (mergeDict [w1, w2])).Nodup := by
    rw [hmerge]
    exact nodup_keys_dictInsertFold _ _
      (nodup_keys_dictInsertFold _ _ (by simp [dictKeys]))
  refine ⟨Workspace.ofHandles ((mergeDict [w1, w2]).map (fun kv => kv.2)),
    t1 ++ t2, ?_, ?_⟩
  · unfold load_workspace_from_yaml_paths
    rw [hdocs]
  · rw [ofHandles_values _ hkeyeq hndm]
    simpa [Workspace.getRepositoryLocationHandle] using hlook

/-- Witness for C5: two concrete one-entry documents both naming their
location `"A"`; the merged workspace carries the second document's handle. -/
theorem C5_merge_last_document_wins_witness :
    ∃ (w : Workspace) (calls : List DiscoveryCall),
      load_workspace_from_yaml_paths sampleEnv
        [(⟨false, none, [.target (.pythonModule (.ref ⟨"mod1", none, some "A"⟩))]⟩,
            "/a.yaml"),
         (⟨false, none, [.target (.pythonModule (.ref ⟨"mod2", none, some "A"⟩))]⟩,
            "/b.yaml")]
        = (.ok w, calls) ∧
      w.getRepositoryLocationHandle "A"
        = some (.outOfProcess "A"
            [("mrepo1", .module "mod2" "m1"), ("mrepo2", .module "mod2" "m2")]
            .cli) :=
  C5_merge_last_document_wins sampleEnv
    ⟨false, none, [.target (.pythonModule (.ref ⟨"mod1", none, some "A"⟩))]⟩
    ⟨false, none, [.target (.pythonModule (.ref ⟨"mod2", none, some "A"⟩))]⟩
    "/a.yaml" "/b.yaml"
    ⟨[("A", .outOfProcess "A"
        [("mrepo1", .module "mod1" "m1"), ("mrepo2", .module "mod1" "m2")] .cli)]⟩
    ⟨[("A", .outOfProcess "A"
        [("mrepo1", .module "mod2" "m1"), ("mrepo2", .module "mod2" "m2")] .cli)]⟩
    [.localModule "mod1"] [.localModule "mod2"] "A"
    (.outOfProcess "A"
      [("mrepo1", .module "mod1" "m1"), ("mrepo2", .module "mod1" "m2")] .cli)
    (.outOfProcess "A"
      [("mrepo1", .module "mod2" "m1"), ("mrepo2", .module "mod2" "m2")] .cli)
    rfl rfl rfl rfl

/-- C6 counterexample: a config with both `port` and `socket` set — `port: 0`
and `socket: "sock"` — resolves successfully instead of failing with the
configuration error, because a zero port is falsy in the source's
`check.invariant` truthiness test. -/
theorem C6_counterexample_both_set_port_zero :
    (⟨some 0, some "sock", none, none⟩ : GrpcServerConfig).port.isSome = true
    ∧ (⟨some 0, some "sock", none, none⟩ : GrpcServerConfig).socket.isSome = true
    ∧ _location_handle_from_grpc_server_config ⟨some 0, some "sock", none, none⟩
        = .ok (.grpcServer (some 0) (some "sock") "localhost" "grpc:localhost:sock") :=
  ⟨rfl, rfl, rfl⟩

/-- C6 (amended): a grpc-server entry fails with the configuration error
exactly when its port and socket are both truthy or both falsy (a zero port
or an empty socket string counts as unset). -/
theorem C6_grpc_exactly_one_truthy (g : GrpcServerConfig) :
    _location_handle_from_grpc_server_config g = .error .configurationError
      ↔ ((truthyNat g.port = true ∧ truthyStr g.socket = true)
          ∨ (truthyNat g.port = false ∧ truthyStr g.socket = false)) := by
  unfold _location_handle_from_grpc_server_config _assign_grpc_location_name
  cases hp : truthyNat g.port <;> cases hs : truthyStr g.socket <;>
    cases hl : truthyStr g.locationName <;>
      simp [hp, hs, hl, Except.map]

/-- Witness for C6 (amended): a config with a truthy port and a truthy socket
fails with the configuration error. -/
theorem C6_grpc_exactly_one_truthy_witness :
    _location_handle_from_grpc_server_config ⟨some 1, some "s", none, none⟩
      = .error .configurationError :=
  (C6_grpc_exactly_one_truthy ⟨some 1, some "s", none, none⟩).mpr
    (Or.inl ⟨by decide, by decide⟩)

/-- C7: a grpc-server entry without an explicit location name gets the
synthesized name `grpc:{host}:{socket_or_port}` with the host defaulting to
localhost; in particular `{port: 4000}` alone yields `grpc:localhost:4000`. -/
theorem C7_grpc_default_naming :
    (∀ (g : GrpcServerConfig) (h : RepositoryLocationHandle),
      truthyStr g.locationName = false →
      _location_handle_from_grpc_server_config g = .ok h →
      h.locationName = "grpc:"
        ++ (if truthyStr g.host then g.host.getD "" else "localhost") ++ ":"
        ++ (if truthyStr g.socket then g.socket.getD ""
            else toString (g.port.getD 0)))
    ∧ _location_handle_from_grpc_server_config ⟨some 4000, none, none, none⟩
        = .ok (.grpcServer (some 4000) none "localhost" "grpc:localhost:4000") := by
  constructor
  · intro g h hl hok
    unfold _location_handle_from_grpc_server_config _assign_grpc_location_name at hok
    cases hp : truthyNat g.port <;> cases hs : truthyStr g.socket
    · simp [hp, hs, hl, Except.map] at hok
    · simp only [hp, hs, hl, Bool.or_true, Bool.or_false, Bool.true_or,
        Bool.false_or, Bool.and_true, Bool.and_false, Bool.true_and,
        Bool.false_and, Bool.not_true, Bool.not_false, Bool.false_eq_true,
        if_true, if_false, Except.map, Except.ok.injEq] at hok
      subst hok
      simp [RepositoryLocationHandle.locationName, hs]
    · simp only [hp, hs, hl, Bool.or_true, Bool.or_false, Bool.true_or,
        Bool.false_or, Bool.and_true, Bool.and_false, Bool.true_and,
        Bool.false_and, Bool.not_true, Bool.not_false, Bool.false_eq_true,
        if_true, if_false, Except.map, Except.ok.injEq] at hok
      subst hok
      simp [RepositoryLocationHandle.locationName, hs]
    · simp [hp, hs, hl, Except.map] at hok
  · rfl

/-- Witness for C7: a socket-only config with an explicit host and no
location name is named `grpc:{host}:{socket}`. -/
theorem C7_grpc_default_naming_witness :
    truthyStr (⟨none, some "s9", some "hx", none⟩ : GrpcServerConfig).locationName
        = false
    ∧ ∃ h, _location_handle_from_grpc_server_config ⟨none, some "s9", some "hx", none⟩
        = .ok h ∧ h.locationName = "grpc:hx:s9" := by
  refine ⟨rfl, ⟨.grpcServer none (some "s9") "hx" "grpc:hx:s9", rfl, ?_⟩⟩
  have := C7_grpc_default_naming.1 ⟨none, some "s9", some "hx", none⟩
    (.grpcServer none (some "s9") "hx" "grpc:hx:s9") rfl rfl
  simpa using this

/-- C4: the source's `location_handle_from_package_name` validates its `api`
parameter but does not forward it to the handle builder, so with the RPC
opt-in a bare `python_package` entry still gets the CLI strategy tag, while
the analogous bare `python_module` entry gets the RPC tag. -/
theorem C4_package_entry_drops_api_flag :
    (_location_handle_from_location_config sampleEnv
        (.target (.pythonPackage (.ref ⟨"pkg", none, some "loc"⟩)))
        "/ws/dev.yaml" ["grpc"]).result
      = .ok (.outOfProcess "loc"
          [("prepo1", .package "pkg" "p1"), ("prepo2", .package "pkg" "p2")]
          .cli)
    ∧ (_location_handle_from_location_config sampleEnv
        (.target (.pythonModule (.ref ⟨"m", none, some "loc"⟩)))
        "/ws/dev.yaml" ["grpc"]).result
      = .ok (.outOfProcess "loc"
          [("mrepo1", .module "m" "m1"), ("mrepo2", .module "m" "m2")]
          .grpc) :=
  ⟨rfl, rfl⟩

/-- C3 counterexample: with the RPC opt-in flag present, an attribute-less
bare `python_file` entry is still enumerated by the in-process target loader
— the recorded discovery call is local and no remote call is issued — so
discovery for bare target entries is not performed remotely via RPC. -/
theorem C3_counterexample_bare_entry_enumerates_locally :
    (_location_handle_from_location_config sampleEnv
        (.target (.pythonFile (.ref ⟨"f.py", none, some "loc", none⟩)))
        "/ws/dev.yaml" ["grpc"])
      = { result := .ok (.outOfProcess "loc"
            [("repo1", .file "/ws/f.py" "a1" none),
             ("repo2", .file "/ws/f.py" "a2" none)] .grpc)
          calls := [.localFile "/ws/f.py" none] }
    ∧ ∀ c ∈ (_location_handle_from_location_config sampleEnv
        (.target (.pythonFile (.ref ⟨"f.py", none, some "loc", none⟩)))
        "/ws/dev.yaml" ["grpc"]).calls, c.isRemote = false :=
  ⟨by decide, by decide⟩

/-- C2 counterexample: a `python_environment` entry whose remote discovery
reports symbols with self-reported repository names `rn1`/`rn2` at attributes
`at1`/`at2` produces a handle whose mapping is keyed by the attribute names,
not by the self-reported repository names. -/
theorem C2_counterexample_python_env_keys_are_attribute_names :
    (_location_handle_from_location_config sampleEnv
        (.pythonEnvironment ⟨"/py", .pythonModule (.ref ⟨"m", none, some "loc"⟩)⟩)
        "/ws/dev.yaml" []).result
      = .ok (.pythonEnv "/py" "loc"
          [("at1", .module "m" "at1"), ("at2", .module "m" "at2")] .cli)
    ∧ (sampleEnv.listRepositoriesCli "/py" none (some "m")
        none).repositorySymbols.map (fun lrs => lrs.repositoryName) = ["rn1", "rn2"]
    ∧ dictKeys (RepositoryLocationHandle.pythonEnv "/py" "loc"
          [("at1", .module "m" "at1"), ("at2", .module "m" "at2")]
          .cli).repositoryCodePointerDict
        ≠ ["rn1", "rn2"] :=
  ⟨rfl, rfl, by decide⟩

/-- C1: a location entry whose discovery yields more than one repository
(symbols at pairwise-distinct names) and which carries no truthy explicit
location name fails with the ambiguity error — for bare file, module and
package entries and for all three `python_environment` target kinds (where
the builder applies the Naming Resolver contract of §4.4). -/
theorem C1_ambiguous_without_location_name (env : Env) (yamlPath : String)
    (optIns : List String) :
    (∀ c : PythonFileConfig,
      truthyStr (_get_python_file_config_data c yamlPath).2.1 = false →
      truthyStr (_get_python_file_config_data c yamlPath).2.2.1 = false →
      (((env.targetsFromFile (_get_python_file_config_data c yamlPath).1
          (_get_python_file_config_data c yamlPath).2.2.2).map
        (fun lt => lt.targetDefinition.name)).Nodup) →
      1 < (env.targetsFromFile (_get_python_file_config_data c yamlPath).1
          (_get_python_file_config_data c yamlPath).2.2.2).length →
      (_location_handle_from_location_config env (.target (.pythonFile c))
        yamlPath optIns).result = .error .ambiguousLocationName)
    ∧ (∀ c : PythonModuleConfig,
      truthyStr (_get_module_config_data c).2.1 = false →
      truthyStr (_get_module_config_data c).2.2 = false →
      (((env.targetsFromModule (_get_module_config_data c).1).map
        (fun lt => lt.targetDefinition.name)).Nodup) →
      1 < (env.targetsFromModule (_get_module_config_data c).1).length →
      (_location_handle_from_location_config env (.target (.pythonModule c))
        yamlPath optIns).result = .error .ambiguousLocationName)
    ∧ (∀ c : PythonPackageConfig,
      truthyStr (_get_package_config_data c).2.1 = false →
      truthyStr (_get_package_config_data c).2.2 = false →
      (((env.targetsFromPackage (_get_package_config_data c).1).map
        (fun lt => lt.targetDefinition.name)).Nodup) →
      1 < (env.targetsFromPackage (_get_package_config_data c).1).length →
      (_location_handle_from_location_config env (.target (.pythonPackage c))
        yamlPath optIns).result = .error .ambiguousLocationName)
    ∧ (∀ (ep : String) (c : PythonFileConfig),
      truthyStr (_get_python_file_config_data c yamlPath).2.1 = false →
      truthyStr (_get_python_file_config_data c yamlPath).2.2.1 = false →
      ((((_list_repositories env (env.expandUser ep)
            (some (_get_python_file_config_data c yamlPath).1) none none
            (if optIns.contains "grpc" then .grpc else .cli)).1.repositorySymbols.map
        (fun lrs => lrs.attributeName)).Nodup) →
      1 < (_list_repositories env (env.expandUser ep)
            (some (_get_python_file_config_data c yamlPath).1) none none
            (if optIns.contains "grpc" then .grpc
              else .cli)).1.repositorySymbols.length →
      (_location_handle_from_location_config env
        (.pythonEnvironment ⟨ep, .pythonFile c⟩) yamlPath optIns).result
        = .error .ambiguousLocationName))
    ∧ (∀ (ep : String) (c : PythonModuleConfig),
      truthyStr (_get_module_config_data c).2.1 = false →
      truthyStr (_get_module_config_data c).2.2 = false →
      ((((_list_repositories env (env.expandUser ep) none
            (some (_get_module_config_data c).1) none
            (if optIns.contains "grpc" then .grpc else .cli)).1.repositorySymbols.map
        (fun lrs => lrs.attributeName)).Nodup) →
      1 < (_list_repositories env (env.expandUser ep) none
            (some (_get_module_config_data c).1) none
            (if optIns.contains "grpc" then .grpc
              else .cli)).1.repositorySymbols.length →
      (_location_handle_from_location_config env
        (.pythonEnvironment ⟨ep, .pythonModule c⟩) yamlPath optIns).result
        = .error .ambiguousLocationName))
    ∧ (∀ (ep : String) (c : PythonPackageConfig),
      truthyStr (_get_package_config_data c).2.1 = false →
      truthyStr (_get_package_config_data c).2.2 = false →
      ((((_list_repositories env (env.expandUser ep) none
            (some (_get_package_config_data c).1) none
            (if optIns.contains "grpc" then .grpc else .cli)).1.repositorySymbols.map
        (fun lrs => lrs.attributeName)).Nodup) →
      1 < (_list_repositories env (env.expandUser ep) none
            (some (_get_package_config_data c).1) none
            (if optIns.contains "grpc" then .grpc
              else .cli)).1.repositorySymbols.length →
      (_location_handle_from_location_config env
        (.pythonEnvironment ⟨ep, .pythonPackage c⟩) yamlPath optIns).result
        = .error .ambiguousLocationName)) := by
  refine ⟨?_, ?_, ?_, ?_, ?_, ?_⟩
  · intro c h1 h2 hnd hlen
    simp only [_location_handle_from_location_config,
      _location_handle_from_target_config, location_handle_from_python_file_config,
      location_handle_from_python_file, h1, Bool.false_eq_true, if_false]
    rw [map_assign_ambiguous _ _ _ h2
      (by simpa [dictKeys, List.map_map, Function.comp] using hnd)
      (by simpa using hlen)]
  · intro c h1 h2 hnd hlen
    simp only [_location_handle_from_location_config,
      _location_handle_from_target_config, _location_handle_from_module_config,
      location_handle_from_module_name, h1, Bool.false_eq_true, if_false]
    rw [map_assign_ambiguous _ _ _ h2
      (by simpa [dictKeys, List.map_map, Function.comp] using hnd)
      (by simpa using hlen)]
  · intro c h1 h2 hnd hlen
    simp only [_location_handle_from_location_config,
      _location_handle_from_target_config, _location_handle_from_package_config,
      location_handle_from_package_name, h1, Bool.false_eq_true, if_false]
    rw [map_assign_ambiguous _ _ _ h2
      (by simpa [dictKeys, List.map_map, Function.comp] using hnd)
      (by simpa using hlen)]
  · intro ep c h1 h2 hnd hlen
    simp only [_location_handle_from_location_config,
      _location_handle_from_python_environment_config, h1, Bool.false_eq_true,
      if_false, create_python_env_location]
    rw [map_assign_ambiguous _ _ _ h2
      (by simpa [dictKeys, List.map_map, Function.comp] using hnd)
      (by simpa using hlen)]
  · intro ep c h1 h2 hnd hlen
    simp only [_location_handle_from_location_config,
      _location_handle_from_python_environment_config, h1, Bool.false_eq_true,
      if_false, create_python_env_location]
    rw [map_assign_ambiguous _ _ _ h2
      (by simpa [dictKeys, List.map_map, Function.comp] using hnd)
      (by simpa using hlen)]
  · intro ep c h1 h2 hnd hlen
    simp only [_location_handle_from_location_config,
      _location_handle_from_python_environment_config, h1, Bool.false_eq_true,
      if_false, create_python_env_location]
    rw [map_assign_ambiguous _ _ _ h2
      (by simpa [dictKeys, List.map_map, Function.comp] using hnd)
      (by simpa using hlen)]

/-- Witness for C1: the bare-string module entry `python_module: "m"` under an
environment discovering two distinctly named repositories fails with the
ambiguity error. -/
theorem C1_ambiguous_without_location_name_witness :
    truthyStr (_get_module_config_data (.str "m")).2.1 = false
    ∧ truthyStr (_get_module_config_data (.str "m")).2.2 = false
    ∧ (((sampleEnv.targetsFromModule (_get_module_config_data (.str "m")).1).map
        (fun lt => lt.targetDefinition.name)).Nodup)
    ∧ 1 < (sampleEnv.targetsFromModule (_get_module_config_data (.str "m")).1).length
    ∧ (_location_handle_from_location_config sampleEnv
        (.target (.pythonModule (.str "m"))) "/ws/dev.yaml" []).result
      = .error .ambiguousLocationName := by
  refine ⟨by decide, by decide, by decide, by decide, ?_⟩
  exact (C1_ambiguous_without_location_name sampleEnv "/ws/dev.yaml" []).2.1
    (.str "m") (by decide) (by decide) (by decide) (by decide)

/-- C2 (amended): for InProcess handles and for OutOfProcessCLI/RPC handles
built from bare target entries, the mapping keys are exactly the self-reported
repository names — of the single legacy-loaded definition, of the discovered
targets (for the three discovery kinds, assuming the discovered names are
pairwise distinct), or of the directly loaded definition when an attribute is
given; for PythonEnvironment handles the keys are instead exactly the
attribute names of the discovered repository symbols (or the explicit
attribute itself), for all three target kinds. -/
theorem C2_mapping_keys (env : Env) :
    (∀ (m : String) (ln : Option String) (api : RepositoryLocationApi)
        (h : RepositoryLocationHandle),
      (((env.targetsFromModule m).map (fun lt => lt.targetDefinition.name)).Nodup) →
      (location_handle_from_module_name env m none api ln).result = .ok h →
      dictKeys h.repositoryCodePointerDict
        = (env.targetsFromModule m).map (fun lt => lt.targetDefinition.name))
    ∧ (∀ (p : String) (wd ln : Option String) (api : RepositoryLocationApi)
        (h : RepositoryLocationHandle),
      (((env.targetsFromFile p wd).map (fun lt => lt.targetDefinition.name)).Nodup) →
      (location_handle_from_python_file env p none api ln wd).result = .ok h →
      dictKeys h.repositoryCodePointerDict
        = (env.targetsFromFile p wd).map (fun lt => lt.targetDefinition.name))
    ∧ (∀ (p : String) (ln : Option String) (api : RepositoryLocationApi)
        (h : RepositoryLocationHandle),
      (((env.targetsFromPackage p).map (fun lt => lt.targetDefinition.name)).Nodup) →
      (location_handle_from_package_name env p none api ln).result = .ok h →
      dictKeys h.repositoryCodePointerDict
        = (env.targetsFromPackage p).map (fun lt => lt.targetDefinition.name))
    ∧ (∀ (m a : String) (ln : Option String) (api : RepositoryLocationApi)
        (h : RepositoryLocationHandle),
      ¬ a = "" →
      (location_handle_from_module_name env m (some a) api ln).result = .ok h →
      dictKeys h.repositoryCodePointerDict = [(load_def_in_module env m a).name])
    ∧ (∀ (ep yamlPath : String) (r : ModuleRefData)
        (api : RepositoryLocationApi) (h : RepositoryLocationHandle),
      r.attributeName = none →
      ((((_list_repositories env (env.expandUser ep) none (some r.moduleName) none
            api).1.repositorySymbols.map (fun lrs => lrs.attributeName)).Nodup) →
      (_location_handle_from_python_environment_config env
          ⟨ep, .pythonModule (.ref r)⟩ yamlPath api).result = .ok h →
      dictKeys h.repositoryCodePointerDict
        = (_list_repositories env (env.expandUser ep) none (some r.moduleName) none
            api).1.repositorySymbols.map (fun lrs => lrs.attributeName)))
    ∧ (∀ (ep yamlPath m a : String) (ln : Option String)
        (api : RepositoryLocationApi) (h : RepositoryLocationHandle),
      ¬ a = "" →
      (_location_handle_from_python_environment_config env
          ⟨ep, .pythonModule (.ref ⟨m, some a, ln⟩)⟩ yamlPath api).result = .ok h →
      dictKeys h.repositoryCodePointerDict = [a])
    ∧ (∀ pointer : CodePointer,
      dictKeys (create_in_process_location env pointer).repositoryCodePointerDict
        = [(env.loadDef pointer).name])
    ∧ (∀ (p a : String) (wd ln : Option String) (api : RepositoryLocationApi)
        (h : RepositoryLocationHandle),
      ¬ a = "" →
      (location_handle_from_python_file env p (some a) api ln wd).result = .ok h →
      dictKeys h.repositoryCodePointerDict
        = [(load_def_in_python_file env p a wd).name])
    ∧ (∀ (p a : String) (ln : Option String) (api : RepositoryLocationApi)
        (h : RepositoryLocationHandle),
      ¬ a = "" →
      (location_handle_from_package_name env p (some a) api ln).result = .ok h →
      dictKeys h.repositoryCodePointerDict = [(load_def_in_package env p a).name])
    ∧ (∀ (ep yamlPath : String) (r : FileRefData)
        (api : RepositoryLocationApi) (h : RepositoryLocationHandle),
      r.attributeName = none →
      ((((_list_repositories env (env.expandUser ep)
            (some (rebase_file r.relativePath yamlPath)) none none
            api).1.repositorySymbols.map (fun lrs => lrs.attributeName)).Nodup) →
      (_location_handle_from_python_environment_config env
          ⟨ep, .pythonFile (.ref r)⟩ yamlPath api).result = .ok h →
      dictKeys h.repositoryCodePointerDict
        = (_list_repositories env (env.expandUser ep)
            (some (rebase_file r.relativePath yamlPath)) none none
            api).1.repositorySymbols.map (fun lrs => lrs.attributeName)))
    ∧ (∀ (ep yamlPath : String) (r : PackageRefData)
        (api : RepositoryLocationApi) (h : RepositoryLocationHandle),
      r.attributeName = none →
      ((((_list_repositories env (env.expandUser ep) none (some r.packageName)
            none api).1.repositorySymbols.map (fun lrs => lrs.attributeName)).Nodup) →
      (_location_handle_from_python_environment_config env
          ⟨ep, .pythonPackage (.ref r)⟩ yamlPath api).result = .ok h →
      dictKeys h.repositoryCodePointerDict
        = (_list_repositories env (env.expandUser ep) none (some r.packageName)
            none api).1.repositorySymbols.map (fun lrs => lrs.attributeName)))
    ∧ (∀ (ep yamlPath rp a : String) (ln wd : Option String)
        (api : RepositoryLocationApi) (h : RepositoryLocationHandle),
      ¬ a = "" →
      (_location_handle_from_python_environment_config env
          ⟨ep, .pythonFile (.ref ⟨rp, some a, ln, wd⟩)⟩ yamlPath api).result
        = .ok h →
      dictKeys h.repositoryCodePointerDict = [a])
    ∧ (∀ (ep yamlPath pk a : String) (ln : Option String)
        (api : RepositoryLocationApi) (h : RepositoryLocationHandle),
      ¬ a = "" →
      (_location_handle_from_python_environment_config env
          ⟨ep, .pythonPackage (.ref ⟨pk, some a, ln⟩)⟩ yamlPath api).result
        = .ok h →
      dictKeys h.repositoryCodePointerDict = [a]) := by
  refine ⟨?_, ?_, ?_, ?_, ?_, ?_, ?_, ?_, ?_, ?_, ?_, ?_, ?_⟩
  · intro m ln api h hnd hok
    simp only [location_handle_from_module_name, truthyStr, Bool.false_eq_true,
      if_false] at hok
    obtain ⟨n, _, hh⟩ := exceptMap_ok _ _ _ hok
    rw [hh]
    simp only [create_out_of_process_location,
      RepositoryLocationHandle.repositoryCodePointerDict]
    rw [dictOfList_of_nodup _
      (by simpa [dictKeys, List.map_map, Function.comp] using hnd)]
    simp [dictKeys, List.map_map, Function.comp]
  · intro p wd ln api h hnd hok
    simp only [location_handle_from_python_file, truthyStr, Bool.false_eq_true,
      if_false] at hok
    obtain ⟨n, _, hh⟩ := exceptMap_ok _ _ _ hok
    rw [hh]
    simp only [create_out_of_process_location,
      RepositoryLocationHandle.repositoryCodePointerDict]
    rw [dictOfList_of_nodup _
      (by simpa [dictKeys, List.map_map, Function.comp] using hnd)]
    simp [dictKeys, List.map_map, Function.comp]
  · intro p ln api h hnd hok
    simp only [location_handle_from_package_name, truthyStr, Bool.false_eq_true,
      if_false] at hok
    obtain ⟨n, _, hh⟩ := exceptMap_ok _ _ _ hok
    rw [hh]
    simp only [create_out_of_process_location,
      RepositoryLocationHandle.repositoryCodePointerDict]
    rw [dictOfList_of_nodup _
      (by simpa [dictKeys, List.map_map, Function.comp] using hnd)]
    simp [dictKeys, List.map_map, Function.comp]
  · intro m a ln api h ha hok
    simp only [location_handle_from_module_name, truthyStr, ha, decide_not,
      decide_eq_true_eq] at hok
    rw [if_pos (by simpa using ha)] at hok
    obtain ⟨n, _, hh⟩ := exceptMap_ok _ _ _ hok
    rw [hh]
    simp [create_out_of_process_location,
      RepositoryLocationHandle.repositoryCodePointerDict, dictOfList,
      dictInsertFold, dictInsert, dictKeys, load_def_in_module]
  · intro ep yamlPath r api h ha hnd hok
    simp only [_location_handle_from_python_environment_config,
      _get_module_config_data, ha, truthyStr, Bool.false_eq_true, if_false,
      create_python_env_location] at hok
    obtain ⟨n, _, hh⟩ := exceptMap_ok _ _ _ hok
    rw [hh]
    simp only [RepositoryLocationHandle.repositoryCodePointerDict]
    rw [dictOfList_of_nodup _
      (by simpa [dictKeys, List.map_map, Function.comp] using hnd)]
    simp [dictKeys, List.map_map, Function.comp]
  · intro ep yamlPath m a ln api h ha hok
    simp only [_location_handle_from_python_environment_config,
      _get_module_config_data, truthyStr, create_python_env_location] at hok
    rw [if_pos (by simpa using ha)] at hok
    obtain ⟨n, _, hh⟩ := exceptMap_ok _ _ _ hok
    rw [hh]
    simp [RepositoryLocationHandle.repositoryCodePointerDict, dictKeys]
  · intro pointer
    rfl
  · intro p a wd ln api h ha hok
    simp only [location_handle_from_python_file, truthyStr, decide_not,
      decide_eq_true_eq] at hok
    rw [if_pos (by simpa using ha)] at hok
    obtain ⟨n, _, hh⟩ := exceptMap_ok _ _ _ hok
    rw [hh]
    simp [create_out_of_process_location,
      RepositoryLocationHandle.repositoryCodePointerDict, dictOfList,
      dictInsertFold, dictInsert, dictKeys, load_def_in_python_file]
  · intro p a ln api h ha hok
    simp only [location_handle_from_package_name, truthyStr, decide_not,
      decide_eq_true_eq] at hok
    rw [if_pos (by simpa using ha)] at hok
    obtain ⟨n, _, hh⟩ := exceptMap_ok _ _ _ hok
    rw [hh]
    simp [create_out_of_process_location,
      RepositoryLocationHandle.repositoryCodePointerDict, dictOfList,
      dictInsertFold, dictInsert, dictKeys, load_def_in_package]
  · intro ep yamlPath r api h ha hnd hok
    simp only [_location_handle_from_python_environment_config,
      _get_python_file_config_data, ha, truthyStr, Bool.false_eq_true, if_false,
      create_python_env_location] at hok
    obtain ⟨n, _, hh⟩ := exceptMap_ok _ _ _ hok
    rw [hh]
    simp only [RepositoryLocationHandle.repositoryCodePointerDict]
    rw [dictOfList_of_nodup _
      (by simpa [dictKeys, List.map_map, Function.comp] using hnd)]
    simp [dictKeys, List.map_map, Function.comp]
  · intro ep yamlPath r api h ha hnd hok
    simp only [_location_handle_from_python_environment_config,
      _get_package_config_data, ha, truthyStr, Bool.false_eq_true, if_false,
      create_python_env_location] at hok
    obtain ⟨n, _, hh⟩ := exceptMap_ok _ _ _ hok
    rw [hh]
    simp only [RepositoryLocationHandle.repositoryCodePointerDict]
    rw [dictOfList_of_nodup _
      (by simpa [dictKeys, List.map_map, Function.comp] using hnd)]
    simp [dictKeys, List.map_map, Function.comp]
  · intro ep yamlPath rp a ln wd api h ha hok
    simp only [_location_handle_from_python_environment_config,
      _get_python_file_config_data, truthyStr, create_python_env_location] at hok
    rw [if_pos (by simpa using ha)] at hok
    obtain ⟨n, _, hh⟩ := exceptMap_ok _ _ _ hok
    rw [hh]
    simp [RepositoryLocationHandle.repositoryCodePointerDict, dictKeys]
  · intro ep yamlPath pk a ln api h ha hok
    simp only [_location_handle_from_python_environment_config,
      _get_package_config_data, truthyStr, create_python_env_location] at hok
    rw [if_pos (by simpa using ha)] at hok
    obtain ⟨n, _, hh⟩ := exceptMap_ok _ _ _ hok
    rw [hh]
    simp [RepositoryLocationHandle.repositoryCodePointerDict, dictKeys]

/-- Witness for C2 (amended): under the sample environment a bare module
entry's handle is keyed by the self-reported names `mrepo1`/`mrepo2`, not by
the attributes `m1`/`m2` that reached them. -/
theorem C2_mapping_keys_witness :
    (((sampleEnv.targetsFromModule "m").map
        (fun lt => lt.targetDefinition.name)).Nodup)
    ∧ (location_handle_from_module_name sampleEnv "m" none .cli
        (some "loc")).result
      = .ok (.outOfProcess "loc"
          [("mrepo1", .module "m" "m1"), ("mrepo2", .module "m" "m2")] .cli)
    ∧ dictKeys (RepositoryLocationHandle.outOfProcess "loc"
        [("mrepo1", .module "m" "m1"), ("mrepo2", .module "m" "m2")]
        .cli).repositoryCodePointerDict
      = (sampleEnv.targetsFromModule "m").map (fun lt => lt.targetDefinition.name) := by
  refine ⟨by decide, by decide, ?_⟩
  exact (C2_mapping_keys sampleEnv).1 "m" (some "loc") .cli
    (.outOfProcess "loc"
      [("mrepo1", .module "m" "m1"), ("mrepo2", .module "m" "m2")] .cli)
    (by decide) (by decide)

/-- C3 (amended): the Api flag follows membership of the grpc flag in the
document's opt_in set; an attribute-less `python_environment` entry is
enumerated by exactly one remote call whose transport follows the flag (RPC
when present, plain subprocess when absent, with the flag recorded in the
request), while an attribute-less bare target entry is always enumerated by
local in-process calls only, regardless of the flag. -/
theorem C3_enumeration_strategy_selection (env : Env) (yamlPath : String)
    (optIns : List String) :
    (∀ tc : TargetConfig, truthyStr tc.attributeOf = false →
      ∀ c ∈ (_location_handle_from_location_config env (.target tc) yamlPath
          optIns).calls, c.isRemote = false)
    ∧ (∀ (ep : String) (tc : TargetConfig), truthyStr tc.attributeOf = false →
      ∃ pf mn, (_location_handle_from_location_config env
          (.pythonEnvironment ⟨ep, tc⟩) yamlPath optIns).calls
        = [.remote (if optIns.contains "grpc" then .grpc else .cli)
            (env.expandUser ep) pf mn none]) := by
  constructor
  · intro tc hattr c hc
    rcases tc with tcc | tcc | tcc <;> rcases tcc with s | r <;>
      simp only [TargetConfig.attributeOf] at hattr <;>
      simp only [_location_handle_from_location_config,
        _location_handle_from_target_config, location_handle_from_python_file_config,
        location_handle_from_python_file, _location_handle_from_module_config,
        location_handle_from_module_name, _location_handle_from_package_config,
        location_handle_from_package_name, _get_python_file_config_data,
        _get_module_config_data, _get_package_config_data, hattr,
        Bool.false_eq_true, if_false, List.mem_singleton] at hc <;>
      rw [hc] <;> rfl
  · intro ep tc hattr
    rcases tc with tcc | tcc | tcc <;> rcases tcc with s | r <;>
      simp only [TargetConfig.attributeOf] at hattr
    · exact ⟨some (rebase_file s yamlPath), none, by
        simp [_location_handle_from_location_config,
          _location_handle_from_python_environment_config, _list_repositories,
          _get_python_file_config_data, hattr]⟩
    · exact ⟨some (rebase_file r.relativePath yamlPath), none, by
        simp [_location_handle_from_location_config,
          _location_handle_from_python_environment_config, _list_repositories,
          _get_python_file_config_data, hattr]⟩
    · exact ⟨none, some s, by
        simp [_location_handle_from_location_config,
          _location_handle_from_python_environment_config, _list_repositories,
          _get_module_config_data, hattr]⟩
    · exact ⟨none, some r.moduleName, by
        simp [_location_handle_from_location_config,
          _location_handle_from_python_environment_config, _list_repositories,
          _get_module_config_data, hattr]⟩
    · exact ⟨none, some s, by
        simp [_location_handle_from_location_config,
          _location_handle_from_python_environment_config, _list_repositories,
          _get_package_config_data, hattr]⟩
    · exact ⟨none, some r.packageName, by
        simp [_location_handle_from_location_config,
          _location_handle_from_python_environment_config, _list_repositories,
          _get_package_config_data, hattr]⟩

/-- Witness for C3 (amended): with the grpc opt-in, a `python_environment`
module entry is enumerated by a single RPC call. -/
theorem C3_enumeration_strategy_selection_witness :
    truthyStr (TargetConfig.pythonModule (.str "m")).attributeOf = false
    ∧ ∃ pf mn, (_location_handle_from_location_config sampleEnv
        (.pythonEnvironment ⟨"/py", .pythonModule (.str "m")⟩)
        "/ws/dev.yaml" ["grpc"]).calls
      = [.remote .grpc "/py" pf mn none] := by
  refine ⟨by decide, ?_⟩
  obtain ⟨pf, mn, hc⟩ := (C3_enumeration_strategy_selection sampleEnv
    "/ws/dev.yaml" ["grpc"]).2 "/py" (.pythonModule (.str "m")) (by decide)
  exact ⟨pf, mn, hc⟩

/-- C8: a target config carrying a truthy explicit attribute never triggers
discovery — no enumeration call is recorded — and resolution succeeds with a
handle whose repository mapping has exactly one entry, both as a bare entry
and nested inside a `python_environment` entry. -/
theorem C8_explicit_attribute_skips_discovery (env : Env) (yamlPath : String)
    (optIns : List String) (tc : TargetConfig)
    (hattr : truthyStr tc.attributeOf = true) :
    ((_location_handle_from_location_config env (.target tc) yamlPath
        optIns).calls = []
      ∧ ∃ h, (_location_handle_from_location_config env (.target tc) yamlPath
          optIns).result = .ok h
        ∧ h.repositoryCodePointerDict.length = 1)
    ∧ ∀ ep : String,
      ((_location_handle_from_location_config env (.pythonEnvironment ⟨ep, tc⟩)
          yamlPath optIns).calls = []
        ∧ ∃ h, (_location_handle_from_location_config env
            (.pythonEnvironment ⟨ep, tc⟩) yamlPath optIns).result = .ok h
          ∧ h.repositoryCodePointerDict.length = 1) := by
  rcases tc with c | c | c <;> rcases c with s | r <;>
    simp only [TargetConfig.attributeOf] at hattr
  · exact absurd hattr (by simp [truthyStr])
  · refine ⟨⟨?_, ?_⟩, fun ep => ⟨?_, ?_⟩⟩
    · simp [_location_handle_from_location_config,
        _location_handle_from_target_config, location_handle_from_python_file_config,
        location_handle_from_python_file, _get_python_file_config_data, hattr]
    · simp [_location_handle_from_location_config,
        _location_handle_from_target_config, location_handle_from_python_file_config,
        location_handle_from_python_file, _get_python_file_config_data, hattr,
        assign_location_name_singleton, Except.map, create_out_of_process_location,
        RepositoryLocationHandle.repositoryCodePointerDict, dictOfList,
        dictInsertFold, dictInsert]
    · simp [_location_handle_from_location_config,
        _location_handle_from_python_environment_config,
        _get_python_file_config_data, hattr]
    · simp [_location_handle_from_location_config,
        _location_handle_from_python_environment_config,
        _get_python_file_config_data, hattr, create_python_env_location,
        assign_location_name_singleton, Except.map,
        RepositoryLocationHandle.repositoryCodePointerDict]
  · exact absurd hattr (by simp [truthyStr])
  · refine ⟨⟨?_, ?_⟩, fun ep => ⟨?_, ?_⟩⟩
    · simp [_location_handle_from_location_config,
        _location_handle_from_target_config, _location_handle_from_module_config,
        location_handle_from_module_name, _get_module_config_data, hattr]
    · simp [_location_handle_from_location_config,
        _location_handle_from_target_config, _location_handle_from_module_config,
        location_handle_from_module_name, _get_module_config_data, hattr,
        assign_location_name_singleton, Except.map, create_out_of_process_location,
        RepositoryLocationHandle.repositoryCodePointerDict, dictOfList,
        dictInsertFold, dictInsert]
    · simp [_location_handle_from_location_config,
        _location_handle_from_python_environment_config,
        _get_module_config_data, hattr]
    · simp [_location_handle_from_location_config,
        _location_handle_from_python_environment_config,
        _get_module_config_data, hattr, create_python_env_location,
        assign_location_name_singleton, Except.map,
        RepositoryLocationHandle.repositoryCodePointerDict]
  · exact absurd hattr (by simp [truthyStr])
  · refine ⟨⟨?_, ?_⟩, fun ep => ⟨?_, ?_⟩⟩
    · simp [_location_handle_from_location_config,
        _location_handle_from_target_config, _location_handle_from_package_config,
        location_handle_from_package_name, _get_package_config_data, hattr]
    · simp [_location_handle_from_location_config,
        _location_handle_from_target_config, _location_handle_from_package_config,
        location_handle_from_package_name, _get_package_config_data, hattr,
        assign_location_name_singleton, Except.map, create_out_of_process_location,
        RepositoryLocationHandle.repositoryCodePointerDict, dictOfList,
        dictInsertFold, dictInsert]
    · simp [_location_handle_from_location_config,
        _location_handle_from_python_environment_config,
        _get_package_config_data, hattr]
    · simp [_location_handle_from_location_config,
        _location_handle_from_python_environment_config,
        _get_package_config_data, hattr, create_python_env_location,
        assign_location_name_singleton, Except.map,
        RepositoryLocationHandle.repositoryCodePointerDict]

/-- Witness for C8: a file entry with explicit attribute `repo` records no
discovery call and yields a single-entry mapping. -/
theorem C8_explicit_attribute_skips_discovery_witness :
    truthyStr (TargetConfig.pythonFile
        (.ref ⟨"f.py", some "repo", none, none⟩)).attributeOf = true
    ∧ (_location_handle_from_location_config sampleEnv
        (.target (.pythonFile (.ref ⟨"f.py", some "repo", none, none⟩)))
        "/ws/dev.yaml" []).calls = []
    ∧ ∃ h, (_location_handle_from_location_config sampleEnv
        (.target (.pythonFile (.ref ⟨"f.py", some "repo", none, none⟩)))
        "/ws/dev.yaml" []).result = .ok h
      ∧ h.repositoryCodePointerDict.length = 1 := by
  have hc := C8_explicit_attribute_skips_discovery sampleEnv "/ws/dev.yaml" []
    (.pythonFile (.ref ⟨"f.py", some "repo", none, none⟩)) (by decide)
  exact ⟨by decide, hc.1.1, hc.1.2⟩

/-- C9: for a `python_file` target config, the target path is rebased against
the directory containing the workspace document (absolute paths pass through
unchanged), a truthy working directory is rebased the same way, an unset or
empty working directory stays unset, and the bare-string shorthand rebases
the path and leaves the working directory unset; the spec's concrete example
`relative_path: "repo.py"` at `/ws/dev.yaml` resolves to `/ws/repo.py`. -/
theorem C9_python_file_paths_rebased_against_document_dir :
    (∀ (r : FileRefData) (yamlPath : String),
      (isAbsolutePath r.relativePath = true →
        (_get_python_file_config_data (.ref r) yamlPath).1 = r.relativePath)
      ∧ (isAbsolutePath r.relativePath = false → ¬ dirname yamlPath = "" →
        (_get_python_file_config_data (.ref r) yamlPath).1
          = dirname yamlPath ++ "/" ++ r.relativePath)
      ∧ (truthyStr r.workingDirectory = false →
        (_get_python_file_config_data (.ref r) yamlPath).2.2.2 = none)
      ∧ (∀ w, r.workingDirectory = some w → ¬ w = "" →
          isAbsolutePath w = true →
        (_get_python_file_config_data (.ref r) yamlPath).2.2.2 = some w)
      ∧ (∀ w, r.workingDirectory = some w → ¬ w = "" →
          isAbsolutePath w = false → ¬ dirname yamlPath = "" →
        (_get_python_file_config_data (.ref r) yamlPath).2.2.2
          = some (dirname yamlPath ++ "/" ++ w)))
    ∧ (∀ s yamlPath : String,
        (_get_python_file_config_data (.str s) yamlPath).1 = rebase_file s yamlPath
        ∧ (_get_python_file_config_data (.str s) yamlPath).2.2.2 = none)
    ∧ (_get_python_file_config_data (.ref ⟨"repo.py", none, none, none⟩)
        "/ws/dev.yaml").1 = "/ws/repo.py" := by
  refine ⟨?_, ?_, ?_⟩
  · intro r yamlPath
    refine ⟨?_, ?_, ?_, ?_, ?_⟩
    · intro habs
      simp [_get_python_file_config_data, rebase_file, habs]
    · intro habs hdir
      simp [_get_python_file_config_data, rebase_file, habs, hdir]
    · intro hwd
      simp [_get_python_file_config_data, hwd]
    · intro w hw hne habs
      simp [_get_python_file_config_data, truthyStr, hw, hne, rebase_file, habs]
    · intro w hw hne habs hdir
      simp [_get_python_file_config_data, truthyStr, hw, hne, rebase_file,
        habs, hdir]
  · intro s yamlPath
    exact ⟨rfl, rfl⟩
  · rfl

/-- Witness for C9: a relative working directory `wd` and relative path
`sub/f.py` at `/ws/dev.yaml` resolve under `/ws`. -/
theorem C9_python_file_paths_rebased_witness :
    isAbsolutePath "sub/f.py" = false
    ∧ ¬ dirname "/ws/dev.yaml" = ""
    ∧ (_get_python_file_config_data
        (.ref ⟨"sub/f.py", none, none, some "wd"⟩) "/ws/dev.yaml").1
      = "/ws/sub/f.py"
    ∧ (_get_python_file_config_data
        (.ref ⟨"sub/f.py", none, none, some "wd"⟩) "/ws/dev.yaml").2.2.2
      = some "/ws/wd" := by
  have hall := C9_python_file_paths_rebased_against_document_dir.1
    ⟨"sub/f.py", none, none, some "wd"⟩ "/ws/dev.yaml"
  refine ⟨by decide, by decide, ?_, ?_⟩
  · have := hall.2.1 (by decide) (by decide)
    simpa using this
  · have := hall.2.2.2.2 "wd" rfl (by decide) (by decide) (by decide)
    simpa using this

/-- C10: a `python_environment` entry wrapping a `python_file` target with no
explicit attribute and a truthy (rebased) working directory issues its remote
discovery call with no working directory at all, even though every code
pointer in the resulting handle carries the rebased working directory. -/
theorem C10_python_env_discovery_drops_working_directory (env : Env)
    (ep yamlPath : String) (r : FileRefData) (optIns : List String)
    (hattr : truthyStr r.attributeName = false)
    (hwd : truthyStr r.workingDirectory = true) :
    (_location_handle_from_location_config env
        (.pythonEnvironment ⟨ep, .pythonFile (.ref r)⟩) yamlPath optIns).calls
      = [.remote (if optIns.contains "grpc" then .grpc else .cli)
          (env.expandUser ep)
          (some (rebase_file r.relativePath yamlPath)) none none]
    ∧ ∀ h, (_location_handle_from_location_config env
        (.pythonEnvironment ⟨ep, .pythonFile (.ref r)⟩) yamlPath
        optIns).result = .ok h →
      ∀ kv ∈ h.repositoryCodePointerDict,
        kv.2 = CodePointer.file (rebase_file r.relativePath yamlPath) kv.1
          (some (rebase_file (r.workingDirectory.getD "") yamlPath)) := by
  constructor
  · simp [_location_handle_from_location_config,
      _location_handle_from_python_environment_config, _list_repositories,
      _get_python_file_config_data, hattr]
  · intro h hok kv hkv
    simp only [_location_handle_from_location_config,
      _location_handle_from_python_environment_config, _list_repositories,
      _get_python_file_config_data, hattr, hwd, Bool.false_eq_true, if_false,
      if_true, create_python_env_location] at hok
    obtain ⟨n, _, hh⟩ := exceptMap_ok _ _ _ hok
    rw [hh] at hkv
    simp only [RepositoryLocationHandle.repositoryCodePointerDict] at hkv
    have hmem := mem_dictOfList _ kv hkv
    obtain ⟨lrs, _, he⟩ := List.mem_map.mp hmem
    rw [← he]

/-- Witness for C10: a concrete python-environment file entry with working
directory `wd` issues its remote call with no working directory while its
pointers carry `/ws/wd`. -/
theorem C10_python_env_discovery_drops_working_directory_witness :
    truthyStr (⟨"f.py", none, some "loc", some "wd"⟩ : FileRefData).attributeName
        = false
    ∧ truthyStr (⟨"f.py", none, some "loc", some "wd"⟩ : FileRefData).workingDirectory
        = true
    ∧ (_location_handle_from_location_config sampleEnv
        (.pythonEnvironment ⟨"/py", .pythonFile
          (.ref ⟨"f.py", none, some "loc", some "wd"⟩)⟩) "/ws/dev.yaml" []).calls
      = [.remote .cli "/py" (some "/ws/f.py") none none] := by
  have hc := C10_python_env_discovery_drops_working_directory sampleEnv "/py"
    "/ws/dev.yaml" ⟨"f.py", none, some "loc", some "wd"⟩ [] (by decide) (by decide)
  exact ⟨by decide, by decide, hc.1⟩

end WorkspaceLoad
